import Mathlib

/-!
Shallow embedding of the dogehouse.py domain model (`src/dogehouse/entities.py`)
and the pieces of its utility layer that the entities call into.

Python payloads are JSON-like dictionaries; we model Python values with an
inductive `Value` type and dictionaries as association lists.  Python's
`dict.get(k)` returns `None` for an absent key, which we model by returning
`Value.none`; strict indexing `d[k]` raises `KeyError`, which we model in the
`Except` monad.  Constructors that can raise (timestamp parsing, strict key
access) are modelled as `Except DHError` computations.
-/

namespace Dogehouse

/-- A Python value as it appears in a parsed JSON websocket payload. -/
inductive Value where
  | none : Value
  | bool (b : Bool) : Value
  | int (n : Int) : Value
  | str (s : String) : Value
  | list (l : List Value) : Value
  | dict (d : List (String × Value)) : Value
deriving Repr

/-- A parsed-JSON dictionary: string keys mapped to values. -/
abbrev Dict := List (String × Value)

/-- Python `data.get(key)`: the stored value, or `None` when the key is absent. -/
def Dict.get (d : Dict) (k : String) : Value :=
  match d.find? (fun p => p.1 == k) with
  | some p => p.2
  | Option.none => Value.none

/-- Errors raised by the entity layer.  `malformedPayload` covers a missing
structurally-required field (Python `KeyError`) and a timestamp that fails to
parse (Python `ValueError` out of `isoparse`); `userNotFound` is the Argument
Resolver's failure when the transport lookup yields no user. -/
inductive DHError where
  | malformedPayload : DHError
  | userNotFound : DHError
deriving Repr, DecidableEq

/-- Python `data[key]`: the stored value, or a `KeyError` (modelled as
`malformedPayload`) when the key is absent. -/
def Dict.getStrict (d : Dict) (k : String) : Except DHError Value :=
  match d.find? (fun p => p.1 == k) with
  | some p => Except.ok p.2
  | Option.none => Except.error DHError.malformedPayload

/-- Python truthiness (`if data:`): `None`, `False`, `0`, `""`, `[]` and `{}`
are falsy, everything else is truthy. -/
def Value.truthy : Value → Bool
  | Value.none => false
  | Value.bool b => b
  | Value.int n => n != 0
  | Value.str s => !s.isEmpty
  | Value.list l => !l.isEmpty
  | Value.dict d => !d.isEmpty

/-- Python `str()` / f-string interpolation of a value, as far as the entity
layer needs it (only strings, `None`, booleans and integers ever reach it). -/
def Value.pyStr : Value → String
  | Value.none => "None"
  | Value.bool true => "True"
  | Value.bool false => "False"
  | Value.int n => toString n
  | Value.str s => s
  | Value.list _ => "[...]"
  | Value.dict _ => "{...}"

/-- A canonical instant, the result of parsing an ISO-8601 timestamp string. -/
structure DateTime where
  year : Nat
  month : Nat
  day : Nat
  hour : Nat
  minute : Nat
  second : Nat
deriving Repr, DecidableEq

/-- Split a character list at every occurrence of the separator `c`. -/
def splitOnChar (c : Char) : List Char → List (List Char)
  | [] => [[]]
  | x :: xs =>
    let rest := splitOnChar c xs
    if x = c then [] :: rest
    else
      match rest with
      | r :: rs => (x :: r) :: rs
      | [] => [[x]]

/-- Interpret a character list as a decimal numeral. -/
def natOfDigits : List Char → Nat
  | [] => 0
  | c :: cs => (c.toNat - 48) * 10 ^ cs.length + natOfDigits cs

/-- Parse a fixed-width decimal field of the expected length. -/
def parseNumField (l : List Char) (len : Nat) : Option Nat :=
  if l.length = len ∧ l.all Char.isDigit then some (natOfDigits l) else Option.none

/-- Parse the `YYYY-MM-DD` date portion of an ISO-8601 string. -/
def parseDate (l : List Char) : Option (Nat × Nat × Nat) :=
  match splitOnChar '-' l with
  | [y, m, d] =>
    match parseNumField y 4, parseNumField m 2, parseNumField d 2 with
    | some yn, some mn, some dn =>
      if 1 ≤ mn ∧ mn ≤ 12 ∧ 1 ≤ dn ∧ dn ≤ 31 then some (yn, mn, dn) else Option.none
    | _, _, _ => Option.none
  | _ => Option.none

/-- Parse the `HH:MM:SS` time portion of an ISO-8601 string (an optional
trailing `Z` offset marker is accepted). -/
def parseTime (l : List Char) : Option (Nat × Nat × Nat) :=
  let core := if l.getLast? = some 'Z' then l.dropLast else l
  match splitOnChar ':' core with
  | [h, m, sec] =>
    match parseNumField h 2, parseNumField m 2, parseNumField sec 2 with
    | some hn, some mn, some sn =>
      if hn ≤ 23 ∧ mn ≤ 59 ∧ sn ≤ 59 then some (hn, mn, sn) else Option.none
    | _, _, _ => Option.none
  | _ => Option.none

/-- Modelled from the spec: the Temporal Normalizer (§2, §9).  The repository
delegates timestamp parsing to the external `dateutil.parser.isoparse`, which
is not part of the source tree; we model it as a partial ISO-8601 parser that
accepts `YYYY-MM-DD` optionally followed by `THH:MM:SS[Z]` and rejects
everything else (including non-string values, on which the Python call
raises `TypeError`). -/
def isoparse (v : Value) : Option DateTime :=
  match v with
  | Value.str s =>
    match splitOnChar 'T' s.toList with
    | [d] =>
      match parseDate d with
      | some (y, m, dd) => some ⟨y, m, dd, 0, 0, 0⟩
      | Option.none => Option.none
    | [d, t] =>
      match parseDate d, parseTime t with
      | some (y, m, dd), some (h, mi, sec) => some ⟨y, m, dd, h, mi, sec⟩
      | _, _ => Option.none
    | _ => Option.none
  | _ => Option.none

/-- `entities.BaseUser`: the most basic information of a fetched user.  The
constructor additionally derives `mention = f"@{username}"`. -/
structure BaseUser where
  id : Value
  username : Value
  displayname : Value
  avatar_url : Value
  mention : String
deriving Repr

/-- `BaseUser.__init__` (entities.py:34-48): stores the four fields and derives
the mention string. -/
def BaseUser.create (id username displayname avatar_url : Value) : BaseUser :=
  { id := id, username := username, displayname := displayname,
    avatar_url := avatar_url, mention := "@" ++ username.pyStr }

/-- `BaseUser.from_dict` (entities.py:53-64): lenient `get` lookups, the id
comes from the `"userId"` key. -/
def BaseUser.fromDict (data : Dict) : BaseUser :=
  BaseUser.create (data.get "userId") (data.get "username")
    (data.get "displayName") (data.get "avatarUrl")

/-- `entities.Permission`: a user's room permissions. -/
structure Permission where
  asked_to_speak : Value
  is_mod : Value
  is_admin : Value
deriving Repr

/-- `Permission.from_dict` (entities.py:85-98): Python's `if data:` sends both
`None` and the empty dict `{}` (both falsy) to the all-`False` fallback; a
non-empty dict is read with lenient `get` lookups.  (A truthy non-dict would
fault in the source; `roomPermissions` is always a dict or absent.) -/
def Permission.fromDict (data : Value) : Permission :=
  match data with
  | Value.dict d =>
    if d.isEmpty then ⟨Value.bool false, Value.bool false, Value.bool false⟩
    else ⟨Dict.get d "askedToSpeak", Dict.get d "isMod", Dict.get d "isAdmin"⟩
  | _ => ⟨Value.bool false, Value.bool false, Value.bool false⟩

/-- `entities.User`: a full dogehouse.tv user.  `last_seen` is the parsed
timestamp; `mention` is inherited from `BaseUser.__init__`. -/
structure User where
  id : Value
  username : Value
  displayname : Value
  avatar_url : Value
  mention : String
  bio : Value
  last_seen : DateTime
  online : Value
  following : Value
  room_permissions : Permission
  num_followers : Value
  num_following : Value
  follows_me : Value
  current_room_id : Value
deriving Repr

/-- `User.__init__` (entities.py:102-131): calls `BaseUser.__init__` for the
shared fields and `isoparse` on `last_seen`; a malformed timestamp raises. -/
def User.create (id username displayname avatar_url bio last_seen online
    following : Value) (room_permissions : Permission)
    (num_followers num_following follows_me current_room_id : Value) :
    Except DHError User :=
  match isoparse last_seen with
  | some t =>
    let base := BaseUser.create id username displayname avatar_url
    Except.ok
      { id := base.id, username := base.username, displayname := base.displayname,
        avatar_url := base.avatar_url, mention := base.mention, bio := bio,
        last_seen := t, online := online, following := following,
        room_permissions := room_permissions, num_followers := num_followers,
        num_following := num_following, follows_me := follows_me,
        current_room_id := current_room_id }
  | Option.none => Except.error DHError.malformedPayload

/-- `User.from_dict` (entities.py:136-149): lenient `get` lookups throughout,
the id comes from the `"id"` key and the timestamp from `"lastOnline"`. -/
def User.fromDict (data : Dict) : Except DHError User :=
  User.create (data.get "id") (data.get "username") (data.get "displayName")
    (data.get "avatarUrl") (data.get "bio") (data.get "lastOnline")
    (data.get "online") (data.get "youAreFollowing")
    (Permission.fromDict (data.get "roomPermissions"))
    (data.get "numFollowers") (data.get "numFollowing")
    (data.get "followsYou") (data.get "currentRoomId")

/-- `User.to_base_user` (entities.py:151-159): narrows a User to a BaseUser by
re-running `BaseUser.__init__` on the shared fields. -/
def User.to_base_user (u : User) : BaseUser :=
  BaseUser.create u.id u.username u.displayname u.avatar_url

/-- `entities.UserPreview`: the reduced projection used in room member lists. -/
structure UserPreview where
  id : Value
  displayname : Value
  num_followers : Value
deriving Repr

/-- `UserPreview.__str__` (entities.py:180-181): returns `self.displayname`. -/
def UserPreview.toStr (u : UserPreview) : Value := u.displayname

/-- `UserPreview.from_dict` (entities.py:183-194): strict indexing on a dict
payload; a missing key (or a non-dict entry) is a hard parse failure. -/
def UserPreview.fromDict (data : Value) : Except DHError UserPreview :=
  match data with
  | Value.dict d => do
    let id ← Dict.getStrict d "id"
    let dn ← Dict.getStrict d "displayName"
    let nf ← Dict.getStrict d "numFollowers"
    Except.ok ⟨id, dn, nf⟩
  | _ => Except.error DHError.malformedPayload

/-- `list(map(UserPreview.from_dict, entries))` (entities.py:244): Python's
`map` materialised by `list(...)` raises on the first failing entry. -/
def parsePreviews : List Value → Except DHError (List UserPreview)
  | [] => Except.ok []
  | v :: rest => do
    let up ← UserPreview.fromDict v
    let ups ← parsePreviews rest
    Except.ok (up :: ups)

/-- `entities.Room`: a dogehouse.tv room; `count` is the payload occupancy,
`users` the parsed preview list. -/
structure Room where
  id : Value
  creator_id : Value
  name : Value
  description : Value
  created_at : DateTime
  is_private : Value
  count : Value
  users : List UserPreview
deriving Repr

/-- `Room.__init__` (entities.py:203-224): `isoparse` on `created_at`,
everything else stored as passed. -/
def Room.create (id creator_id name description created_at is_private
    count : Value) (users : List UserPreview) : Except DHError Room :=
  match isoparse created_at with
  | some t =>
    Except.ok
      { id := id, creator_id := creator_id, name := name,
        description := description, created_at := t, is_private := is_private,
        count := count, users := users }
  | Option.none => Except.error DHError.malformedPayload

/-- `Room.from_dict` (entities.py:232-244): strict indexing; `count` comes from
`"numPeopleInside"` and `users` from mapping `UserPreview.from_dict` over
`"peoplePreviewList"` (which must be a list, else Python's `map` faults). -/
def Room.fromDict (data : Dict) : Except DHError Room := do
  let id ← data.getStrict "id"
  let creatorId ← data.getStrict "creatorId"
  let name ← data.getStrict "name"
  let description ← data.getStrict "description"
  let insertedAt ← data.getStrict "inserted_at"
  let isPrivate ← data.getStrict "isPrivate"
  let count ← data.getStrict "numPeopleInside"
  let previewsRaw ← data.getStrict "peoplePreviewList"
  match previewsRaw with
  | Value.list l => do
    let users ← parsePreviews l
    Room.create id creatorId name description insertedAt isPrivate count users
  | _ => Except.error DHError.malformedPayload

/-- Modelled from the spec: the Token Renderer (§4.2), implemented by the
repository's `utils.parsers.parse_tokens_to_message`, which is not in the
source tree.  Each token segment is a keyed mapping tagged with a kind and a
payload; segments are rendered in order and concatenated with no separator.
A user mention contributes an `@`-prefixed reference; an emote a `:`-wrapped
name; text, links and unknown kinds contribute their literal payload when
present, otherwise nothing (unknown kinds never fail the render). -/
def renderToken (tok : Value) : String :=
  match tok with
  | Value.dict d =>
    match Dict.get d "t" with
    | Value.str "text" => (Dict.get d "v").pyStr
    | Value.str "mention" => "@" ++ (Dict.get d "v").pyStr
    | Value.str "emote" => ":" ++ (Dict.get d "v").pyStr ++ ":"
    | Value.str "link" => (Dict.get d "v").pyStr
    | _ =>
      match Dict.get d "v" with
      | Value.none => ""
      | v => v.pyStr
  | _ => ""

/-- Modelled from the spec: the Token Renderer applied to a full token
sequence (§4.2) — render each segment in order and concatenate. -/
def parse_tokens (tokens : Value) : String :=
  match tokens with
  | Value.list l => String.join (l.map renderToken)
  | _ => ""

/-- `entities.Message`: a chat message; `content` is derived from `tokens` by
the Token Renderer inside the constructor. -/
structure Message where
  id : Value
  tokens : Value
  is_wisper : Value
  created_at : DateTime
  author : BaseUser
  content : String
deriving Repr

/-- `Message.__init__` (entities.py:248-264): `isoparse` on `created_at`,
`content = parse_tokens(tokens)`. -/
def Message.create (id tokens is_wisper created_at : Value) (author : BaseUser) :
    Except DHError Message :=
  match isoparse created_at with
  | some t =>
    Except.ok
      { id := id, tokens := tokens, is_wisper := is_wisper, created_at := t,
        author := author, content := parse_tokens tokens }
  | Option.none => Except.error DHError.malformedPayload

/-- `Message.from_dict` (entities.py:269-280): strict indexing for the message
fields, the author parsed leniently from the same payload. -/
def Message.fromDict (data : Dict) : Except DHError Message := do
  let id ← data.getStrict "id"
  let tokens ← data.getStrict "tokens"
  let isWhisper ← data.getStrict "isWhisper"
  let sentAt ← data.getStrict "sentAt"
  Message.create id tokens isWhisper sentAt (BaseUser.fromDict data)

/-- `entities.Client`: process-wide session state. -/
structure Client where
  user : Option User
  room : Option Room
  rooms : List Room
  prefixes : List String
deriving Repr

/-- `Client.__init__` (entities.py:284-297): the `user` argument is discarded —
the body assigns `self.user = None` — while `room`, `rooms` and `prefix` are
stored as passed.  (The source names the last field `prefix`, a reserved
word in Lean, so it is called `prefixes` here.) -/
def Client.create (_user : User) (room : Option Room) (rooms : List Room)
    (prefixes : List String) : Client :=
  { user := Option.none, room := room, rooms := rooms, prefixes := prefixes }

/-- `entities.Context`: per-message context. -/
structure Context where
  client : Client
  bot : Client
  message : Message
  author : BaseUser
deriving Repr

/-- `Context.__init__` (entities.py:301-312). -/
def Context.create (client : Client) (message : Message) : Context :=
  { client := client, bot := client, message := message,
    author := message.author }

/-- Modelled from the spec: mention interpretation inside the resolver (§4.3),
"leading `@` stripped, remainder treated as username". -/
def stripMention (argument : String) : String :=
  match argument.toList with
  | '@' :: rest => String.mk rest
  | _ => argument

/-- Modelled from the spec: the Argument Resolver's underlying lookup,
`Convertor._get_user` from the repository's missing `utils.convertors` module
(§4.3): interpret the argument as a mention by stripping a leading `@`,
perform exactly one lookup through the transport collaborator (here passed in
as `lookup`), succeed with the fetched User, and fail with `UserNotFound`
when the lookup yields no user.  No retry is performed. -/
def getUser (lookup : String → Option User) (argument : String) :
    Except DHError User :=
  match lookup (stripMention argument) with
  | some u => Except.ok u
  | Option.none => Except.error DHError.userNotFound

/-- `BaseUser.convert` (entities.py:66-68): one `_get_user` lookup, then the
`to_base_user` narrowing. -/
def BaseUser.convert (lookup : String → Option User) (argument : String) :
    Except DHError BaseUser :=
  (getUser lookup argument).map User.to_base_user

/-- `User.convert` (entities.py:161-163): one `_get_user` lookup, returned
as-is. -/
def User.convert (lookup : String → Option User) (argument : String) :
    Except DHError User :=
  getUser lookup argument

/-- `UserPreview.convert` (entities.py:196-199): one `_get_user` lookup, then
reconstruction from `id`/`displayname`/`num_followers`. -/
def UserPreview.convert (lookup : String → Option User) (argument : String) :
    Except DHError UserPreview :=
  (getUser lookup argument).map (fun u => ⟨u.id, u.displayname, u.num_followers⟩)

/-- The `displayName` field of a raw preview-list entry, as it sits in the
original payload. -/
def previewDisplayName (v : Value) : Value :=
  match v with
  | Value.dict e => Dict.get e "displayName"
  | _ => Value.none

/-! ### Concrete sample inputs (used by the witness theorems) -/

/-- A sample message payload: two tokens, a well-formed timestamp, and the
author's identity fields alongside. -/
def c1Payload : Dict :=
  [("id", Value.str "m1"),
   ("tokens", Value.list
     [Value.dict [("t", Value.str "text"), ("v", Value.str "hello ")],
      Value.dict [("t", Value.str "mention"), ("v", Value.str "bob")]]),
   ("isWhisper", Value.bool false),
   ("sentAt", Value.str "2021-03-01T12:00:00"),
   ("userId", Value.str "u9"), ("username", Value.str "bob"),
   ("displayName", Value.str "Bob"), ("avatarUrl", Value.str "http")]

/-- The message parsed from `c1Payload`. -/
def c1Message : Message :=
  { id := Value.str "m1",
    tokens := Value.list
      [Value.dict [("t", Value.str "text"), ("v", Value.str "hello ")],
       Value.dict [("t", Value.str "mention"), ("v", Value.str "bob")]],
    is_wisper := Value.bool false,
    created_at := ⟨2021, 3, 1, 12, 0, 0⟩,
    author := { id := Value.str "u9", username := Value.str "bob",
                displayname := Value.str "Bob", avatar_url := Value.str "http",
                mention := "@bob" },
    content := "hello @bob" }

/-- A sample fully-populated user named `alice`. -/
def c2User : User :=
  { id := Value.str "u1", username := Value.str "alice",
    displayname := Value.str "Alice", avatar_url := Value.str "http",
    mention := "@alice", bio := Value.str "hi",
    last_seen := ⟨2021, 1, 1, 0, 0, 0⟩, online := Value.bool true,
    following := Value.bool false,
    room_permissions := ⟨Value.bool false, Value.bool false, Value.bool false⟩,
    num_followers := Value.int 10, num_following := Value.int 5,
    follows_me := Value.bool false, current_room_id := Value.none }

/-- A payload whose timestamp fields hold the malformed string `"not-a-date"`. -/
def c3Payload : Dict :=
  [("id", Value.str "m2"), ("tokens", Value.list []),
   ("isWhisper", Value.bool false),
   ("sentAt", Value.str "not-a-date"),
   ("username", Value.str "eve"),
   ("lastOnline", Value.str "not-a-date")]

/-- A sample user returned by the resolver's lookup for `"alice"`. -/
def c4User : User :=
  { id := Value.str "u2", username := Value.str "alice",
    displayname := Value.str "Alice A", avatar_url := Value.str "http2",
    mention := "@alice", bio := Value.str "",
    last_seen := ⟨2021, 5, 5, 5, 5, 5⟩, online := Value.bool true,
    following := Value.bool true,
    room_permissions := ⟨Value.bool false, Value.bool false, Value.bool false⟩,
    num_followers := Value.int 42, num_following := Value.int 7,
    follows_me := Value.bool true, current_room_id := Value.str "r9" }

/-- A transport lookup that knows exactly the user `alice`. -/
def c4Lookup (s : String) : Option User :=
  if s = "alice" then some c4User else Option.none

/-- A sample room payload: occupancy 50, but only a 2-element preview list. -/
def c7Previews : List Value :=
  [Value.dict [("id", Value.str "p1"), ("displayName", Value.str "Alice"),
               ("numFollowers", Value.int 3)],
   Value.dict [("id", Value.str "p2"), ("displayName", Value.str "Bob"),
               ("numFollowers", Value.int 4)]]

/-- The room payload carrying `c7Previews`. -/
def c7Payload : Dict :=
  [("id", Value.str "r1"), ("creatorId", Value.str "u1"),
   ("name", Value.str "Lounge"), ("description", Value.str "chat"),
   ("inserted_at", Value.str "2021-02-18T14:30:00"),
   ("isPrivate", Value.bool false), ("numPeopleInside", Value.int 50),
   ("peoplePreviewList", Value.list c7Previews)]

/-- The room parsed from `c7Payload`. -/
def c7Room : Room :=
  { id := Value.str "r1", creator_id := Value.str "u1",
    name := Value.str "Lounge", description := Value.str "chat",
    created_at := ⟨2021, 2, 18, 14, 30, 0⟩, is_private := Value.bool false,
    count := Value.int 50,
    users := [⟨Value.str "p1", Value.str "Alice", Value.int 3⟩,
              ⟨Value.str "p2", Value.str "Bob", Value.int 4⟩] }

/-- A second room payload, for the round-trip property. -/
def c8Previews : List Value :=
  [Value.dict [("id", Value.str "q1"), ("displayName", Value.str "Carol"),
               ("numFollowers", Value.int 1)],
   Value.dict [("id", Value.str "q2"), ("displayName", Value.str "Dave"),
               ("numFollowers", Value.int 2)]]

/-- The room payload carrying `c8Previews`. -/
def c8Payload : Dict :=
  [("id", Value.str "r2"), ("creatorId", Value.str "u3"),
   ("name", Value.str "Den"), ("description", Value.str "talk"),
   ("inserted_at", Value.str "2021-06-01"),
   ("isPrivate", Value.bool true), ("numPeopleInside", Value.int 9),
   ("peoplePreviewList", Value.list c8Previews)]

/-- The room parsed from `c8Payload`. -/
def c8Room : Room :=
  { id := Value.str "r2", creator_id := Value.str "u3",
    name := Value.str "Den", description := Value.str "talk",
    created_at := ⟨2021, 6, 1, 0, 0, 0⟩, is_private := Value.bool true,
    count := Value.int 9,
    users := [⟨Value.str "q1", Value.str "Carol", Value.int 1⟩,
              ⟨Value.str "q2", Value.str "Dave", Value.int 2⟩] }

/-- A user payload carrying an `"id"` key but no `"userId"` key. -/
def c10Payload : Dict :=
  [("id", Value.str "u1"), ("username", Value.str "al"),
   ("lastOnline", Value.str "2021-01-01")]

/-- The user parsed from `c10Payload`. -/
def c10User : User :=
  { id := Value.str "u1", username := Value.str "al",
    displayname := Value.none, avatar_url := Value.none, mention := "@al",
    bio := Value.none, last_seen := ⟨2021, 1, 1, 0, 0, 0⟩,
    online := Value.none, following := Value.none,
    room_permissions := ⟨Value.bool false, Value.bool false, Value.bool false⟩,
    num_followers := Value.none, num_following := Value.none,
    follows_me := Value.none, current_room_id := Value.none }

/-! ### Helper lemmas -/

theorem Dict.getStrict_ok_get {d : Dict} {k : String} {v : Value}
    (h : d.getStrict k = Except.ok v) : d.get k = v := by
  unfold Dict.getStrict at h
  unfold Dict.get
  cases hf : d.find? (fun p => p.1 == k) with
  | none => rw [hf] at h; simp at h
  | some p => rw [hf] at h; simpa using h

theorem Dict.getStrict_error_eq {d : Dict} {k : String} {e : DHError}
    (h : d.getStrict k = Except.error e) : e = DHError.malformedPayload := by
  unfold Dict.getStrict at h
  cases hf : d.find? (fun p => p.1 == k) with
  | none => rw [hf] at h; simpa using h.symm
  | some p => rw [hf] at h; simp at h

theorem UserPreview.fromDict_displayname {v : Value} {up : UserPreview}
    (h : UserPreview.fromDict v = Except.ok up) :
    up.displayname = previewDisplayName v := by
  cases v with
  | dict e =>
    unfold UserPreview.fromDict at h
    simp only [bind, Except.bind] at h
    cases h1 : Dict.getStrict e "id" with
    | error _ => rw [h1] at h; simp at h
    | ok idv =>
      rw [h1] at h
      cases h2 : Dict.getStrict e "displayName" with
      | error _ => rw [h2] at h; simp at h
      | ok dn =>
        rw [h2] at h
        cases h3 : Dict.getStrict e "numFollowers" with
        | error _ => rw [h3] at h; simp at h
        | ok nf =>
          rw [h3] at h
          simp only [Except.ok.injEq] at h
          rw [← h]
          simpa [previewDisplayName] using (Dict.getStrict_ok_get h2).symm
  | none => simp [UserPreview.fromDict] at h
  | bool b => simp [UserPreview.fromDict] at h
  | int n => simp [UserPreview.fromDict] at h
  | str s => simp [UserPreview.fromDict] at h
  | list l => simp [UserPreview.fromDict] at h

theorem parsePreviews_ok {l : List Value} {ups : List UserPreview}
    (h : parsePreviews l = Except.ok ups) :
    ups.length = l.length ∧
      ups.map UserPreview.toStr = l.map previewDisplayName := by
  induction l generalizing ups with
  | nil =>
    unfold parsePreviews at h
    simp only [Except.ok.injEq] at h
    subst h
    simp
  | cons v rest ih =>
    unfold parsePreviews at h
    simp only [bind, Except.bind] at h
    cases h1 : UserPreview.fromDict v with
    | error _ => rw [h1] at h; simp at h
    | ok up =>
      rw [h1] at h
      cases h2 : parsePreviews rest with
      | error _ => rw [h2] at h; simp at h
      | ok ups2 =>
        rw [h2] at h
        simp only [Except.ok.injEq] at h
        subst h
        obtain ⟨hlen, hdisp⟩ := ih h2
        refine ⟨by simpa using hlen, ?_⟩
        simp only [List.map_cons]
        rw [hdisp]
        rw [show up.toStr = previewDisplayName v from UserPreview.fromDict_displayname h1]

theorem Room.fromDict_fields {d : Dict} {r : Room}
    (h : Room.fromDict d = Except.ok r) :
    r.count = Dict.get d "numPeopleInside" ∧
      ∃ l, Dict.get d "peoplePreviewList" = Value.list l ∧
        parsePreviews l = Except.ok r.users := by
  unfold Room.fromDict at h
  simp only [bind, Except.bind] at h
  cases h1 : Dict.getStrict d "id" with
  | error _ => rw [h1] at h; simp at h
  | ok idv =>
  rw [h1] at h
  cases h2 : Dict.getStrict d "creatorId" with
  | error _ => rw [h2] at h; simp at h
  | ok cidv =>
  rw [h2] at h
  cases h3 : Dict.getStrict d "name" with
  | error _ => rw [h3] at h; simp at h
  | ok namev =>
  rw [h3] at h
  cases h4 : Dict.getStrict d "description" with
  | error _ => rw [h4] at h; simp at h
  | ok descv =>
  rw [h4] at h
  cases h5 : Dict.getStrict d "inserted_at" with
  | error _ => rw [h5] at h; simp at h
  | ok insv =>
  rw [h5] at h
  cases h6 : Dict.getStrict d "isPrivate" with
  | error _ => rw [h6] at h; simp at h
  | ok privv =>
  rw [h6] at h
  cases h7 : Dict.getStrict d "numPeopleInside" with
  | error _ => rw [h7] at h; simp at h
  | ok countv =>
  rw [h7] at h
  cases h8 : Dict.getStrict d "peoplePreviewList" with
  | error _ => rw [h8] at h; simp at h
  | ok prevv =>
  rw [h8] at h
  cases prevv with
  | list l =>
    simp only [bind, Except.bind] at h
    cases h9 : parsePreviews l with
    | error _ => rw [h9] at h; simp at h
    | ok ups =>
      rw [h9] at h
      unfold Room.create at h
      cases h10 : isoparse insv with
      | none => rw [h10] at h; simp at h
      | some t =>
        rw [h10] at h
        simp only [Except.ok.injEq] at h
        subst h
        exact ⟨(Dict.getStrict_ok_get h7).symm,
          l, Dict.getStrict_ok_get h8, h9⟩
  | none => simp at h
  | bool b => simp at h
  | int n => simp at h
  | str s => simp at h
  | dict e => simp at h

theorem User.fromDict_identity {d : Dict} {u : User}
    (h : User.fromDict d = Except.ok u) :
    u.id = Dict.get d "id" ∧ u.username = Dict.get d "username" ∧
      u.displayname = Dict.get d "displayName" ∧
      u.avatar_url = Dict.get d "avatarUrl" := by
  unfold User.fromDict User.create at h
  cases h1 : isoparse (Dict.get d "lastOnline") with
  | none => rw [h1] at h; simp at h
  | some t =>
    rw [h1] at h
    simp only [Except.ok.injEq] at h
    subst h
    exact ⟨rfl, rfl, rfl, rfl⟩

/-! ### Claim theorems -/

/-- C1: for every well-formed message payload, the `content` field of the
`Message` produced by parsing equals the Token Renderer applied to that
message's `tokens` sequence. -/
theorem message_content_invariant :
    ∀ (d : Dict) (m : Message), Message.fromDict d = Except.ok m →
      m.content = parse_tokens m.tokens := by
  intro d m h
  unfold Message.fromDict at h
  simp only [bind, Except.bind] at h
  cases h1 : Dict.getStrict d "id" with
  | error _ => rw [h1] at h; simp at h
  | ok idv =>
  rw [h1] at h
  cases h2 : Dict.getStrict d "tokens" with
  | error _ => rw [h2] at h; simp at h
  | ok tokv =>
  rw [h2] at h
  cases h3 : Dict.getStrict d "isWhisper" with
  | error _ => rw [h3] at h; simp at h
  | ok whv =>
  rw [h3] at h
  cases h4 : Dict.getStrict d "sentAt" with
  | error _ => rw [h4] at h; simp at h
  | ok sentv =>
  rw [h4] at h
  dsimp only at h
  unfold Message.create at h
  cases h5 : isoparse sentv with
  | none => rw [h5] at h; simp at h
  | some t =>
    rw [h5] at h
    simp only [Except.ok.injEq] at h
    subst h
    rfl

/-- C1 witness: a concrete message payload whose parsed content equals the
rendered tokens. -/
theorem message_content_invariant_witness :
    c1Message.content = parse_tokens c1Message.tokens :=
  message_content_invariant c1Payload c1Message (by rfl)

/-- C2: `to_base_user` is a total narrowing — the resulting `BaseUser`'s id,
username, displayname and avatar_url equal the source `User`'s fields, and
its mention is `"@"` concatenated with the username. -/
theorem to_base_user_narrowing :
    ∀ u : User,
      u.to_base_user.id = u.id ∧ u.to_base_user.username = u.username ∧
        u.to_base_user.displayname = u.displayname ∧
        u.to_base_user.avatar_url = u.avatar_url ∧
        ∀ s, u.username = Value.str s → u.to_base_user.mention = "@" ++ s := by
  intro u
  refine ⟨rfl, rfl, rfl, rfl, ?_⟩
  intro s hs
  unfold User.to_base_user BaseUser.create
  rw [hs]
  rfl

/-- C2 witness: the narrowing applied to a concrete user. -/
theorem to_base_user_narrowing_witness :
    c2User.to_base_user.mention = "@" ++ "alice" :=
  (to_base_user_narrowing c2User).2.2.2.2 "alice" (by rfl)

/-- C3: a payload whose timestamp field fails the Temporal Normalizer
(e.g. `lastOnline`/`sentAt` holds `"not-a-date"`) makes the entity parser
fail with `MalformedPayload`; no entity (hence no default instant) is ever
produced. -/
theorem malformed_timestamp_rejected :
    ∀ d : Dict,
      (isoparse (Dict.get d "lastOnline") = Option.none →
        User.fromDict d = Except.error DHError.malformedPayload) ∧
      (isoparse (Dict.get d "sentAt") = Option.none →
        Message.fromDict d = Except.error DHError.malformedPayload) := by
  intro d
  constructor
  · intro hbad
    unfold User.fromDict User.create
    rw [hbad]
  · intro hbad
    unfold Message.fromDict
    simp only [bind, Except.bind]
    cases h1 : Dict.getStrict d "id" with
    | error e => dsimp only; rw [Dict.getStrict_error_eq h1]
    | ok idv =>
    dsimp only
    cases h2 : Dict.getStrict d "tokens" with
    | error e => dsimp only; rw [Dict.getStrict_error_eq h2]
    | ok tokv =>
    dsimp only
    cases h3 : Dict.getStrict d "isWhisper" with
    | error e => dsimp only; rw [Dict.getStrict_error_eq h3]
    | ok whv =>
    dsimp only
    cases h4 : Dict.getStrict d "sentAt" with
    | error e => dsimp only; rw [Dict.getStrict_error_eq h4]
    | ok sentv =>
    dsimp only
    unfold Message.create
    rw [Dict.getStrict_ok_get h4] at hbad
    rw [hbad]

/-- C3 witness: the payload `c3Payload` carries `"not-a-date"` in both
`lastOnline` and `sentAt`; both parsers reject it. -/
theorem malformed_timestamp_rejected_witness :
    User.fromDict c3Payload = Except.error DHError.malformedPayload ∧
      Message.fromDict c3Payload = Except.error DHError.malformedPayload :=
  ⟨(malformed_timestamp_rejected c3Payload).1 (by rfl),
   (malformed_timestamp_rejected c3Payload).2 (by rfl)⟩

/-- C4: when the resolver's single underlying lookup returns a full `User`
for the (mention-stripped) argument, resolving to shape `UserPreview` yields
a preview reconstructed from the user's id/displayname/num_followers, and
resolving to shape `BaseUser` yields the narrowing projection of that user. -/
theorem resolver_narrowing :
    ∀ (lookup : String → Option User) (argument : String) (u : User),
      lookup (stripMention argument) = some u →
      UserPreview.convert lookup argument =
          Except.ok ⟨u.id, u.displayname, u.num_followers⟩ ∧
        BaseUser.convert lookup argument = Except.ok u.to_base_user := by
  intro lookup argument u h
  constructor
  · unfold UserPreview.convert getUser
    rw [h]
    rfl
  · unfold BaseUser.convert getUser
    rw [h]
    rfl

/-- C4 witness: argument `"@alice"` against a lookup that knows `alice`. -/
theorem resolver_narrowing_witness :
    UserPreview.convert c4Lookup "@alice" =
        Except.ok ⟨c4User.id, c4User.displayname, c4User.num_followers⟩ ∧
      BaseUser.convert c4Lookup "@alice" = Except.ok c4User.to_base_user :=
  resolver_narrowing c4Lookup "@alice" c4User (by rfl)

/-- C5: when the underlying lookup yields no user, every resolver shape fails
with `UserNotFound` and returns no entity; moreover the result depends only
on the single lookup at the stripped argument (no retry, no second lookup). -/
theorem resolver_lookup_absence :
    (∀ (lookup : String → Option User) (argument : String),
      lookup (stripMention argument) = Option.none →
        User.convert lookup argument = Except.error DHError.userNotFound ∧
          BaseUser.convert lookup argument = Except.error DHError.userNotFound ∧
          UserPreview.convert lookup argument =
            Except.error DHError.userNotFound) ∧
    (∀ (l₁ l₂ : String → Option User) (argument : String),
      l₁ (stripMention argument) = l₂ (stripMention argument) →
        getUser l₁ argument = getUser l₂ argument) := by
  constructor
  · intro lookup argument h
    refine ⟨?_, ?_, ?_⟩
    · unfold User.convert getUser
      rw [h]
    · unfold BaseUser.convert getUser
      rw [h]
      rfl
    · unfold UserPreview.convert getUser
      rw [h]
      rfl
  · intro l₁ l₂ argument h
    unfold getUser
    rw [h]

/-- C5 witness: a lookup that knows nobody makes all three shapes fail with
`UserNotFound`. -/
theorem resolver_lookup_absence_witness :
    User.convert (fun _ => Option.none) "@ghost" =
        Except.error DHError.userNotFound ∧
      BaseUser.convert (fun _ => Option.none) "@ghost" =
        Except.error DHError.userNotFound ∧
      UserPreview.convert (fun _ => Option.none) "@ghost" =
        Except.error DHError.userNotFound :=
  resolver_lookup_absence.1 (fun _ => Option.none) "@ghost" (by rfl)

/-- C6: `Permission.from_dict` applied to an absent permissions block (`None`)
and to an empty mapping (`{}`) both yield the all-false permission record. -/
theorem permission_default_false :
    Permission.fromDict Value.none =
        ⟨Value.bool false, Value.bool false, Value.bool false⟩ ∧
      Permission.fromDict (Value.dict []) =
        ⟨Value.bool false, Value.bool false, Value.bool false⟩ :=
  ⟨rfl, rfl⟩

/-- C7: a parsed room's `count` is the payload's `numPeopleInside` and its
`users` list has exactly one element per entry of the payload's preview list;
the two are independent. -/
theorem room_count_preview_independent :
    ∀ (d : Dict) (r : Room), Room.fromDict d = Except.ok r →
      r.count = Dict.get d "numPeopleInside" ∧
        ∀ l, Dict.get d "peoplePreviewList" = Value.list l →
          r.users.length = l.length := by
  intro d r h
  obtain ⟨hcount, l', hl', hp⟩ := Room.fromDict_fields h
  refine ⟨hcount, ?_⟩
  intro l hl
  rw [hl] at hl'
  cases hl'
  exact (parsePreviews_ok hp).1

/-- C7 witness: `c7Payload` has `numPeopleInside = 50` and a 2-element preview
list; it parses with `count = 50` and `len(users) = 2`. -/
theorem room_count_preview_independent_witness :
    c7Room.count = Value.int 50 ∧ c7Room.users.length = 2 :=
  ⟨((room_count_preview_independent c7Payload c7Room (by rfl)).1).trans rfl,
   ((room_count_preview_independent c7Payload c7Room (by rfl)).2 c7Previews
     (by rfl)).trans rfl⟩

/-- C8: round-trip — parsing a room payload and rendering each resulting
`UserPreview`'s display form (`__str__`, i.e. its `displayname`) reproduces
the `displayName` of the corresponding original preview-list entry, in
order. -/
theorem room_preview_roundtrip :
    ∀ (d : Dict) (r : Room) (l : List Value), Room.fromDict d = Except.ok r →
      Dict.get d "peoplePreviewList" = Value.list l →
      r.users.map UserPreview.toStr = l.map previewDisplayName := by
  intro d r l h hl
  obtain ⟨_, l', hl', hp⟩ := Room.fromDict_fields h
  rw [hl] at hl'
  cases hl'
  exact (parsePreviews_ok hp).2

/-- C8 witness: the parsed previews of `c8Payload` render back to the original
`displayName` strings, in order. -/
theorem room_preview_roundtrip_witness :
    c8Room.users.map UserPreview.toStr =
      [Value.str "Carol", Value.str "Dave"] :=
  (room_preview_roundtrip c8Payload c8Room c8Previews (by rfl) (by rfl)).trans
    rfl

/-- C9: the `Client` constructor discards its `user` argument — the resulting
client's `user` field is `None` — while `room`, `rooms` and `prefix` are
stored exactly as passed. -/
theorem client_init_discards_user (u : User) (room : Option Room)
    (rooms : List Room) (prefixes : List String) :
    (Client.create u room rooms prefixes).user = Option.none ∧
      (Client.create u room rooms prefixes).room = room ∧
      (Client.create u room rooms prefixes).rooms = rooms ∧
      (Client.create u room rooms prefixes).prefixes = prefixes :=
  ⟨rfl, rfl, rfl, rfl⟩

/-- C10: `BaseUser.from_dict` reads the id from `"userId"` while
`User.from_dict` reads it from `"id"`; a payload with an `"id"` key but no
`"userId"` key yields a `BaseUser` whose id is `None`, and the two parsed
ids agree exactly when the payload maps `"id"` and `"userId"` to the same
value. -/
theorem baseuser_user_id_key_mismatch :
    (∀ d : Dict, (BaseUser.fromDict d).id = Dict.get d "userId") ∧
      (∀ (d : Dict) (u : User), User.fromDict d = Except.ok u →
        u.id = Dict.get d "id") ∧
      (∀ d : Dict, d.find? (fun p => p.1 == "userId") = Option.none →
        (BaseUser.fromDict d).id = Value.none) ∧
      (∀ (d : Dict) (u : User), User.fromDict d = Except.ok u →
        (u.to_base_user.id = (BaseUser.fromDict d).id ↔
          Dict.get d "id" = Dict.get d "userId")) := by
  refine ⟨fun d => rfl, fun d u h => (User.fromDict_identity h).1, ?_, ?_⟩
  · intro d hfind
    show Dict.get d "userId" = Value.none
    unfold Dict.get
    rw [hfind]
  · intro d u h
    have hid : u.to_base_user.id = Dict.get d "id" := (User.fromDict_identity h).1
    have hbid : (BaseUser.fromDict d).id = Dict.get d "userId" := rfl
    rw [hid, hbid]

/-- C10 witness: `c10Payload` carries `"id"` but no `"userId"`; the parsed
`BaseUser` id is `None`, and the id-agreement criterion instantiates. -/
theorem baseuser_user_id_key_mismatch_witness :
    (BaseUser.fromDict c10Payload).id = Value.none ∧
      (c10User.to_base_user.id = (BaseUser.fromDict c10Payload).id ↔
        Dict.get c10Payload "id" = Dict.get c10Payload "userId") :=
  ⟨baseuser_user_id_key_mismatch.2.2.1 c10Payload (by rfl),
   baseuser_user_id_key_mismatch.2.2.2 c10Payload c10User (by rfl)⟩

end Dogehouse
